import Mathlib

/-!
Verification of the behavioral threat-classification engine of InfosysQSecure.

Shallow embedding of the code in src/zero_trust.py and src/ai_threat_analyzer.py:
the behavior categorizers (get_typing_category, get_mouse_category), the fixed
threat-pattern library (threat_patterns), the rule-based classifier
(_rule_based_analysis), the bounded threat history (record_threat), the security
score update of record_security_incident, and the confidence clamping of
check_user_behavior.  Speeds and scores are embedded as rationals (the Python
floats are only compared and combined by +, -, *, / on the values in play);
machine floating point plays no role at the inputs considered.
-/

namespace QSecure

/-- The five behavior buckets returned by get_typing_category and
get_mouse_category in zero_trust.py (keys of typing_thresholds / mouse_thresholds). -/
inductive Category
  | very_slow
  | slow
  | normal
  | fast
  | very_fast
deriving DecidableEq

/-- The five threat levels used by the pattern library ("Critical", "High",
"Medium", "Low", "None" strings in the source). -/
inductive Severity
  | critical
  | high
  | medium
  | low
  | none
deriving DecidableEq

/-- The derived consistency flag ("high" / "low" strings in the source). -/
inductive Consistency
  | high
  | low
deriving DecidableEq

/-- get_typing_category from zero_trust.py lines 255-266: successive strict-<
tests against typing_thresholds very_slow=2.0, slow=3.5, normal=5.5, fast=7.5.
(The source also returns a description string used only in the analysis text.) -/
def get_typing_category (typing_speed : ℚ) : Category :=
  if typing_speed < 2 then Category.very_slow
  else if typing_speed < 7/2 then Category.slow
  else if typing_speed < 11/2 then Category.normal
  else if typing_speed < 15/2 then Category.fast
  else Category.very_fast

/-- get_mouse_category from zero_trust.py lines 268-279: successive strict-<
tests against mouse_thresholds very_slow=100, slow=200, normal=400, fast=600. -/
def get_mouse_category (mouse_speed : ℚ) : Category :=
  if mouse_speed < 100 then Category.very_slow
  else if mouse_speed < 200 then Category.slow
  else if mouse_speed < 400 then Category.normal
  else if mouse_speed < 600 then Category.fast
  else Category.very_fast

/-- One condition dict of a threat pattern.  A key absent from the Python dict
(dict.get(key, None) returns None) is Option.none and acts as a wildcard. -/
structure Condition where
  typing : Option Category := Option.none
  mouse : Option Category := Option.none
  consistency : Option Consistency := Option.none
  if_suspicious : Option Bool := Option.none
  svm_suspicious : Option Bool := Option.none
  one_algorithm_suspicious : Option Bool := Option.none
deriving DecidableEq

/-- One entry of the threat_patterns dict: description, condition list, threat level. -/
structure ThreatPattern where
  description : String
  conditions : List Condition
  threat_level : Severity
deriving DecidableEq

/-- threat_patterns["bot_pattern"] from zero_trust.py lines 59-66. -/
def bot_pattern : ThreatPattern where
  description := "Automated bot or script activity"
  conditions :=
    [ { typing := Option.some Category.very_fast, mouse := Option.some Category.very_slow,
        consistency := Option.some Consistency.high },
      { typing := Option.some Category.very_fast, mouse := Option.some Category.very_fast,
        consistency := Option.some Consistency.high } ]
  threat_level := Severity.critical

/-- threat_patterns["advanced_attacker"] from zero_trust.py lines 67-73. -/
def advanced_attacker : ThreatPattern where
  description := "Advanced human attacker with tools"
  conditions :=
    [ { typing := Option.some Category.normal, mouse := Option.some Category.fast,
        if_suspicious := Option.some true, svm_suspicious := Option.some true } ]
  threat_level := Severity.high

/-- threat_patterns["unusual_behavior"] from zero_trust.py lines 74-81. -/
def unusual_behavior : ThreatPattern where
  description := "Unusual behavior patterns"
  conditions :=
    [ { typing := Option.some Category.very_slow, mouse := Option.some Category.very_fast },
      { typing := Option.some Category.fast, mouse := Option.some Category.very_slow } ]
  threat_level := Severity.medium

/-- threat_patterns["possible_shared_account"] from zero_trust.py lines 82-88. -/
def possible_shared_account : ThreatPattern where
  description := "Possible shared account or different user"
  conditions :=
    [ { typing := Option.some Category.normal, mouse := Option.some Category.normal,
        one_algorithm_suspicious := Option.some true } ]
  threat_level := Severity.medium

/-- threat_patterns["learning_user"] from zero_trust.py lines 89-95. -/
def learning_user : ThreatPattern where
  description := "Legitimate user learning the system"
  conditions :=
    [ { typing := Option.some Category.slow, mouse := Option.some Category.slow,
        one_algorithm_suspicious := Option.some true } ]
  threat_level := Severity.low

/-- threat_patterns["normal_user"] from zero_trust.py lines 96-102. -/
def normal_user : ThreatPattern where
  description := "Normal user behavior"
  conditions :=
    [ { typing := Option.some Category.normal, mouse := Option.some Category.normal,
        if_suspicious := Option.some false, svm_suspicious := Option.some false } ]
  threat_level := Severity.none

/-- The fixed pattern library in Python dict insertion order (zero_trust.py
lines 58-103; the table in ai_threat_analyzer.py lines 48-96 is identical). -/
def threat_patterns : List ThreatPattern :=
  [bot_pattern, advanced_attacker, unusual_behavior, possible_shared_account,
   learning_user, normal_user]

/-- A condition value of Option.none (key absent) matches anything; a present
value must equal the derived value (the X_match booleans of _rule_based_analysis). -/
def opt_match {α : Type} [DecidableEq α] (c : Option α) (v : α) : Bool :=
  match c with
  | Option.none => true
  | Option.some w => decide (v = w)

/-- The conjunction of the six X_match checks in _rule_based_analysis
(zero_trust.py lines 516-537). -/
def condition_matches (c : Condition) (typing_category mouse_category : Category)
    (consistency : Consistency)
    (if_suspicious svm_suspicious one_algorithm_suspicious : Bool) : Bool :=
  opt_match c.typing typing_category &&
  opt_match c.mouse mouse_category &&
  opt_match c.consistency consistency &&
  opt_match c.if_suspicious if_suspicious &&
  opt_match c.svm_suspicious svm_suspicious &&
  opt_match c.one_algorithm_suspicious one_algorithm_suspicious

/-- consistency is "high" if abs(typing_speed - mouse_speed/100) < 2 else "low"
(zero_trust.py line 513). -/
def consistency_of (typing_speed mouse_speed : ℚ) : Consistency :=
  if |typing_speed - mouse_speed/100| < 2 then Consistency.high else Consistency.low

/-- threat_level_priority dict of _rule_based_analysis (zero_trust.py line 547). -/
def threat_level_priority : Severity → Nat
  | Severity.critical => 0
  | Severity.high => 1
  | Severity.medium => 2
  | Severity.low => 3
  | Severity.none => 4

/-- The selection step of _rule_based_analysis: Python stably sorts the matched
patterns by rank and takes index 0, which selects the first element of minimal
rank.  select_min computes that element directly: it replaces the current
candidate only on a strictly smaller rank, so earlier elements win ties. -/
def select_min {α : Type} (rank : α → Nat) : α → List α → α
  | x, [] => x
  | x, y :: ys => if rank y < rank x then select_min rank y ys else select_min rank x ys

/-- _rule_based_analysis from zero_trust.py lines 503-553, up to the selected
pattern: derive the categories, the one_algorithm_suspicious flag and the
consistency flag, keep the patterns any of whose conditions match (the inner
loop with break is an existential over the condition list), default to
normal_user when nothing matches, then pick the first pattern of minimal
threat-level rank (stable sort by threat_level_priority, index 0).  The threat
level and description of the result feed the returned analysis text. -/
def rule_based_analysis (typing_speed mouse_speed : ℚ)
    (if_suspicious svm_suspicious : Bool) : ThreatPattern :=
  match threat_patterns.filter fun p =>
    p.conditions.any fun c =>
      condition_matches c (get_typing_category typing_speed)
        (get_mouse_category mouse_speed) (consistency_of typing_speed mouse_speed)
        if_suspicious svm_suspicious (if_suspicious || svm_suspicious) with
  | [] => normal_user
  | p :: ps => select_min (fun q => threat_level_priority q.threat_level) p ps

/-- The verdict record assembled from a classification run: the threat level and
description of the selected pattern, the wall-clock timestamp the source takes
from datetime.now() (here an explicit input, since the clock is ambient state),
the scored sample, and the two detector anomaly flags.  This is the ThreatVerdict of the spec data model; the history entries written by record_threat in
ai_threat_analyzer.py lines 325-355 carry the same fields. -/
structure ThreatVerdict where
  timestamp : String
  threat_level : Severity
  description : String
  typing_speed : ℚ
  mouse_speed : ℚ
  if_verdict : Bool
  svm_verdict : Bool
deriving DecidableEq

/-- classify: run the rule-based analysis and emit the verdict record, stamping
it with the current clock value (datetime.now().strftime in the source). -/
def classify (now : String) (typing_speed mouse_speed : ℚ)
    (if_suspicious svm_suspicious : Bool) : ThreatVerdict :=
  let p := rule_based_analysis typing_speed mouse_speed if_suspicious svm_suspicious
  { timestamp := now
    threat_level := p.threat_level
    description := p.description
    typing_speed := typing_speed
    mouse_speed := mouse_speed
    if_verdict := if_suspicious
    svm_verdict := svm_suspicious }

/-- record_threat from ai_threat_analyzer.py lines 325-355: append the new
threat to the history, then pop index 0 when the length exceeds 50. -/
def record_threat (threat_history : List ThreatVerdict) (threat : ThreatVerdict) :
    List ThreatVerdict :=
  let h := threat_history ++ [threat]
  if h.length > 50 then h.drop 1 else h

/-- The threat-level label strings of the score_impact dict. -/
def lvl_critical : String := "Critical"

def lvl_high : String := "High"

def lvl_medium : String := "Medium"

def lvl_low : String := "Low"

def lvl_none : String := "None"

def lvl_error : String := "Error"

/-- An arbitrary label outside the score_impact dict, for concrete instances. -/
def lvl_bogus : String := "Bogus"

/-- score_impact dict of record_security_incident (zero_trust.py lines 678-686);
dict.get(threat_level, 0) defaults to 0 for any other label. -/
def score_impact (threat_level : String) : Int :=
  if threat_level = lvl_critical then -50
  else if threat_level = lvl_high then -30
  else if threat_level = lvl_medium then -15
  else if threat_level = lvl_low then -5
  else if threat_level = lvl_none then 0
  else if threat_level = lvl_error then -10
  else 0

/-- The security-score update of record_security_incident (zero_trust.py lines
687-689): security_score = max(500, min(1000, security_score + impact)).
The initial score is 850 (zero_trust.py line 23). -/
def update_security_score (security_score : Int) (threat_level : String) : Int :=
  max 500 (min 1000 (security_score + score_impact threat_level))

/-- The Isolation Forest score normalization of check_user_behavior
(zero_trust.py line 311): (if_score + 0.5) / 1.5. -/
def if_normalized_score (if_score : ℚ) : ℚ :=
  (if_score + 1/2) / (3/2)

/-- The confidence computation of check_user_behavior (zero_trust.py lines 314
and 322, identical in biometric_collector.py lines 444 and 460):
max(0, min(100, normalized*100 if not anomaly else (1 - normalized)*100)). -/
def confidence (normalized_score : ℚ) (is_anomaly : Bool) : ℚ :=
  max 0 (min 100 (if is_anomaly then (1 - normalized_score) * 100
                  else normalized_score * 100))

/-- Example timestamp strings for concrete classification instances. -/
def ts_a : String := "2024-01-01 10:00:00"

def ts_b : String := "2024-01-01 10:00:01"

/-- Concrete verdict records for concrete history instances. -/
def tv0 : ThreatVerdict where
  timestamp := ts_a
  threat_level := Severity.critical
  description := "Automated bot or script activity"
  typing_speed := 9
  mouse_speed := 650
  if_verdict := true
  svm_verdict := true

def tv1 : ThreatVerdict where
  timestamp := ts_b
  threat_level := Severity.none
  description := "Normal user behavior"
  typing_speed := 9/2
  mouse_speed := 320
  if_verdict := false
  svm_verdict := false

/-- Typing speed 9 keystrokes per second is categorized very_fast. -/
lemma cat_typing_9 : get_typing_category 9 = Category.very_fast := by
  norm_num [get_typing_category]

/-- Mouse speed 650 pixels per second is categorized very_fast. -/
lemma cat_mouse_650 : get_mouse_category 650 = Category.very_fast := by
  norm_num [get_mouse_category]

/-- The consistency flag at typing 9, mouse 650 is low: abs(9 - 6.5) = 2.5 is not below 2. -/
lemma cons_9_650 : consistency_of 9 650 = Consistency.low := by
  have h : |(9 : ℚ) - 650/100| = 5/2 := by
    rw [abs_of_nonneg] <;> norm_num
  unfold consistency_of
  rw [h]
  norm_num

/-- Typing speed 1.2 keystrokes per second is categorized very_slow. -/
lemma cat_typing_1_2 : get_typing_category (12/10) = Category.very_slow := by
  norm_num [get_typing_category]

/-- Mouse speed 130 pixels per second is categorized slow. -/
lemma cat_mouse_130 : get_mouse_category 130 = Category.slow := by
  norm_num [get_mouse_category]

/-- The consistency flag at typing 1.2, mouse 130 is high: abs(1.2 - 1.3) = 0.1 is below 2. -/
lemma cons_1_2_130 : consistency_of (12/10) 130 = Consistency.high := by
  have h : |(12 : ℚ)/10 - 130/100| = 1/10 := by
    rw [abs_of_nonpos] <;> norm_num
  unfold consistency_of
  rw [h]
  norm_num

/-- Typing speed 7.5 keystrokes per second is categorized very_fast. -/
lemma cat_typing_7_5 : get_typing_category (15/2) = Category.very_fast := by
  norm_num [get_typing_category]

/-- Mouse speed 700 pixels per second is categorized very_fast. -/
lemma cat_mouse_700 : get_mouse_category 700 = Category.very_fast := by
  norm_num [get_mouse_category]

/-- The consistency flag at typing 7.5, mouse 700 is high: abs(7.5 - 7) = 0.5 is below 2. -/
lemma cons_7_5_700 : consistency_of (15/2) 700 = Consistency.high := by
  have h : |(15 : ℚ)/2 - 700/100| = 1/2 := by
    rw [abs_of_nonneg] <;> norm_num
  unfold consistency_of
  rw [h]
  norm_num

/-- select_min rank x l returns the first element of minimal rank of x :: l:
whenever x :: l splits as pre ++ p :: post with every element of pre of
strictly larger rank and p of minimal rank overall, the selection is p. -/
lemma select_min_spec {α : Type} (rank : α → Nat) :
    ∀ (l : List α) (x : α) (pre post : List α) (p : α),
      x :: l = pre ++ p :: post →
      (∀ q ∈ pre, rank p < rank q) →
      (∀ q ∈ x :: l, rank p ≤ rank q) →
      select_min rank x l = p := by
  intro l
  induction l with
  | nil =>
    intro x pre post p hdec hpre hmin
    cases pre with
    | nil =>
      rw [List.nil_append] at hdec
      injection hdec
    | cons a pre2 =>
      rw [List.cons_append] at hdec
      injection hdec with h1 h2
      have hlen := congrArg List.length h2
      simp only [List.length_nil, List.length_append, List.length_cons] at hlen
      omega
  | cons y ys ih =>
    intro x pre post p hdec hpre hmin
    cases pre with
    | nil =>
      rw [List.nil_append] at hdec
      injection hdec with h1 h2
      subst h1
      have hxy : ¬ rank y < rank x := by
        have hy : rank x ≤ rank y := hmin y (by simp)
        omega
      show (if rank y < rank x then select_min rank y ys else select_min rank x ys) = x
      rw [if_neg hxy]
      refine ih x [] ys x (by rw [List.nil_append]) (by simp) ?_
      intro q hq
      rcases List.mem_cons.mp hq with h | h
      · exact le_of_eq (by rw [h])
      · exact hmin q (by simp [h])
    | cons a pre2 =>
      rw [List.cons_append] at hdec
      injection hdec with h1 h2
      have hpx : rank p < rank x := by
        rw [h1]
        exact hpre a (by simp)
      by_cases hyx : rank y < rank x
      · show (if rank y < rank x then select_min rank y ys else select_min rank x ys) = p
        rw [if_pos hyx]
        refine ih y pre2 post p h2 ?_ ?_
        · intro q hq
          exact hpre q (by simp [hq])
        · intro q hq
          exact hmin q (List.mem_cons_of_mem x hq)
      · show (if rank y < rank x then select_min rank y ys else select_min rank x ys) = p
        rw [if_neg hyx]
        cases pre2 with
        | nil =>
          rw [List.nil_append] at h2
          injection h2 with h3 h4
          rw [h3] at hyx
          omega
        | cons b pre3 =>
          rw [List.cons_append] at h2
          injection h2 with h3 h4
          refine ih x (x :: pre3) post p (by rw [h4, List.cons_append]) ?_ ?_
          · intro q hq
            rcases List.mem_cons.mp hq with h | h
            · rw [h]
              exact hpx
            · exact hpre q (by simp [h])
          · intro q hq
            rcases List.mem_cons.mp hq with h | h
            · rw [h]
              exact hmin x (by simp)
            · exact hmin q (by simp [h])

/-- Appending to a history strictly below capacity evicts nothing. -/
lemma record_threat_of_lt (h : List ThreatVerdict) (t : ThreatVerdict)
    (hlt : h.length < 50) : record_threat h t = h ++ [t] := by
  have hc : ¬ ((h ++ [t]).length > 50) := by
    rw [List.length_append]
    simp only [List.length_singleton]
    omega
  show (if (h ++ [t]).length > 50 then (h ++ [t]).drop 1 else (h ++ [t])) = h ++ [t]
  rw [if_neg hc]

/-- Appending to a history at capacity evicts exactly the oldest entry. -/
lemma record_threat_at_cap (h : List ThreatVerdict) (t : ThreatVerdict)
    (hlen : h.length = 50) : record_threat h t = (h ++ [t]).drop 1 := by
  have hc : (h ++ [t]).length > 50 := by
    rw [List.length_append]
    simp only [List.length_singleton]
    omega
  show (if (h ++ [t]).length > 50 then (h ++ [t]).drop 1 else (h ++ [t])) = (h ++ [t]).drop 1
  rw [if_pos hc]

/-- Folding record_threat over a batch that fits under the capacity is plain appending. -/
lemma foldl_record_threat_of_le :
    ∀ (l acc : List ThreatVerdict), acc.length + l.length ≤ 50 →
      List.foldl record_threat acc l = acc ++ l := by
  intro l
  induction l with
  | nil =>
    intro acc _
    simp
  | cons t ts ih =>
    intro acc hle
    simp only [List.length_cons] at hle
    rw [List.foldl_cons, record_threat_of_lt acc t (by omega),
      ih (acc ++ [t]) (by simp only [List.length_append, List.length_singleton]; omega)]
    simp

/-- Every single update of the security score lands in the clamp range. -/
lemma update_security_score_bounds (s : Int) (lvl : String) :
    500 ≤ update_security_score s lvl ∧ update_security_score s lvl ≤ 1000 := by
  unfold update_security_score
  constructor
  · exact le_max_left _ _
  · exact max_le (by norm_num) (min_le_left _ _)

/-- C1: the spec scenario claims that the sample with typing 9.0 and mouse 650,
both detectors flagging an anomaly, classifies as Critical.  It does not: the
returned threat level is not Critical (the consistency flag is low at this
sample, so neither bot-pattern condition matches). -/
theorem c1_counterexample :
    (rule_based_analysis 9 650 true true).threat_level ≠ Severity.critical := by
  unfold rule_based_analysis
  rw [cat_typing_9, cat_mouse_650, cons_9_650]
  decide

/-- C1 amended: at typing 9.0 and mouse 650 with both detectors flagging, the
consistency flag is low (abs(9.0 - 6.5) = 2.5 is not below 2), so no pattern in
the library matches even though both categories are very_fast; the classifier
falls back to the normal_user pattern and yields threat level None. -/
theorem c1_scenario2_amended :
    rule_based_analysis 9 650 true true = normal_user ∧
    get_typing_category 9 = Category.very_fast ∧
    get_mouse_category 650 = Category.very_fast ∧
    consistency_of 9 650 = Consistency.low ∧
    (rule_based_analysis 9 650 true true).threat_level = Severity.none := by
  have h : rule_based_analysis 9 650 true true = normal_user := by
    unfold rule_based_analysis
    rw [cat_typing_9, cat_mouse_650, cons_9_650]
    rfl
  refine ⟨h, cat_typing_9, cat_mouse_650, cons_9_650, ?_⟩
  rw [h]
  rfl

/-- C2: the selection step of the classifier (stable sort by
threat_level_priority, take index 0, computed by select_min) returns, for every
nonempty list of matched patterns, the pattern of numerically lowest severity
rank; when several matched patterns share that minimal rank, the first one in
definition order is selected: whenever the list splits as pre ++ p :: post with
every pattern of pre of strictly larger rank and p of minimal rank, the
selection is exactly p. -/
theorem c2_severity_dominance (m : ThreatPattern) (ms pre post : List ThreatPattern)
    (p : ThreatPattern) (hdec : m :: ms = pre ++ p :: post)
    (hpre : ∀ q ∈ pre,
      threat_level_priority p.threat_level < threat_level_priority q.threat_level)
    (hmin : ∀ q ∈ m :: ms,
      threat_level_priority p.threat_level ≤ threat_level_priority q.threat_level) :
    select_min (fun q => threat_level_priority q.threat_level) m ms = p :=
  select_min_spec (fun q => threat_level_priority q.threat_level) ms m pre post p
    hdec hpre hmin

/-- C2 witness: on the matched set learning_user (Low), unusual_behavior
(Medium), possible_shared_account (Medium), the selection picks
unusual_behavior: lowest rank wins over definition order, and the tie between
the two Medium patterns goes to the earlier one. -/
theorem c2_severity_dominance_witness :
    (∀ q ∈ [learning_user],
      threat_level_priority unusual_behavior.threat_level <
        threat_level_priority q.threat_level) ∧
    (∀ q ∈ [learning_user, unusual_behavior, possible_shared_account],
      threat_level_priority unusual_behavior.threat_level ≤
        threat_level_priority q.threat_level) ∧
    select_min (fun q => threat_level_priority q.threat_level) learning_user
      [unusual_behavior, possible_shared_account] = unusual_behavior := by
  refine ⟨by decide, by decide, ?_⟩
  exact c2_severity_dominance learning_user [unusual_behavior, possible_shared_account]
    [learning_user] [possible_shared_account] unusual_behavior rfl (by decide) (by decide)

/-- C3: recording 51 verdicts into an initially empty threat history leaves
exactly the last 50: the result is the tail of the recorded sequence, has
length 50, and no longer contains the very first recorded verdict. -/
theorem c3_history_fifo (v : ThreatVerdict) (rest : List ThreatVerdict)
    (hlen : rest.length = 50) :
    List.foldl record_threat [] (v :: rest) = rest ∧
    (List.foldl record_threat [] (v :: rest)).length = 50 ∧
    (v ∉ rest → v ∉ List.foldl record_threat [] (v :: rest)) := by
  have key : List.foldl record_threat [] (v :: rest) = rest := by
    rcases List.eq_nil_or_concat' rest with h | ⟨L, b, hLb⟩
    · rw [h] at hlen
      simp at hlen
    · subst hLb
      have hL : L.length = 49 := by
        rw [List.length_append] at hlen
        simp only [List.length_singleton] at hlen
        omega
      have hfold : List.foldl record_threat [] (v :: L) = v :: L := by
        have h50 := foldl_record_threat_of_le (v :: L) []
          (by simp only [List.length_nil, List.length_cons, hL]; omega)
        simpa using h50
      calc List.foldl record_threat [] (v :: (L ++ [b]))
          = List.foldl record_threat [] ((v :: L) ++ [b]) := by rw [List.cons_append]
        _ = record_threat (List.foldl record_threat [] (v :: L)) b := by
              rw [List.foldl_append, List.foldl_cons, List.foldl_nil]
        _ = record_threat (v :: L) b := by rw [hfold]
        _ = ((v :: L) ++ [b]).drop 1 := record_threat_at_cap _ _ (by simp [hL])
        _ = L ++ [b] := by simp
  refine ⟨key, ?_, ?_⟩
  · rw [key, hlen]
  · intro hnot
    rw [key]
    exact hnot

/-- C3 witness: one concrete run of 51 recorded verdicts. -/
theorem c3_history_fifo_witness :
    (List.replicate 50 tv1).length = 50 ∧
    List.foldl record_threat [] (tv0 :: List.replicate 50 tv1) = List.replicate 50 tv1 :=
  ⟨by simp, (c3_history_fifo tv0 (List.replicate 50 tv1) (by simp)).1⟩

/-- C4: starting from the initial score 850, any sequence of recorded threat
levels keeps the security score within the clamp range 500 to 1000 (in
particular a run of Critical penalties never drives it under 500); a None
verdict never raises a score that is at least the floor; and the per-severity
penalties are Critical -50, High -30, Medium -15, Low -5, None 0. -/
theorem c4_posture_clamp :
    (∀ levels : List String, 500 ≤ List.foldl update_security_score 850 levels ∧
      List.foldl update_security_score 850 levels ≤ 1000) ∧
    (∀ s : Int, 500 ≤ s → update_security_score s lvl_none ≤ s) ∧
    score_impact lvl_critical = -50 ∧ score_impact lvl_high = -30 ∧
    score_impact lvl_medium = -15 ∧ score_impact lvl_low = -5 ∧
    score_impact lvl_none = 0 := by
  have hfold : ∀ (levels : List String) (s : Int), 500 ≤ s → s ≤ 1000 →
      500 ≤ List.foldl update_security_score s levels ∧
        List.foldl update_security_score s levels ≤ 1000 := by
    intro levels
    induction levels with
    | nil =>
      intro s h1 h2
      exact ⟨by simpa using h1, by simpa using h2⟩
    | cons lvl ls ih =>
      intro s h1 h2
      rw [List.foldl_cons]
      exact ih _ (update_security_score_bounds s lvl).1 (update_security_score_bounds s lvl).2
  have hnone : ∀ s : Int, 500 ≤ s → update_security_score s lvl_none ≤ s := by
    intro s hs
    unfold update_security_score
    have himp : score_impact lvl_none = 0 := rfl
    rw [himp, add_zero]
    rcases le_total s 1000 with h | h
    · rw [min_eq_right h, max_eq_right hs]
    · rw [min_eq_left h]
      have h1000 : (max 500 1000 : Int) = 1000 := by norm_num
      rw [h1000]
      exact h
  exact ⟨fun levels => hfold levels 850 (by norm_num) (by norm_num),
    hnone, rfl, rfl, rfl, rfl, rfl⟩

/-- C4 witness: the None-verdict part at the concrete score 850. -/
theorem c4_posture_clamp_witness :
    500 ≤ (850 : Int) ∧ update_security_score 850 lvl_none ≤ 850 :=
  ⟨by norm_num, c4_posture_clamp.2.1 850 (by norm_num)⟩

/-- C5: the spec scenario claims that the sample with typing 1.2 and mouse 130,
exactly one detector flagging, classifies as Low or Medium.  It does not: the
returned threat level is neither Low nor Medium (typing 1.2 is categorized
very_slow, not slow, so the learning_user pattern does not match). -/
theorem c5_counterexample :
    ¬ ((rule_based_analysis (12/10) 130 true false).threat_level = Severity.low ∨
       (rule_based_analysis (12/10) 130 true false).threat_level = Severity.medium) := by
  have h : rule_based_analysis (12/10) 130 true false = normal_user := by
    unfold rule_based_analysis
    rw [cat_typing_1_2, cat_mouse_130, cons_1_2_130]
    rfl
  rw [h]
  decide

/-- C5 amended: at typing 1.2 and mouse 130 with exactly one detector flagging
(either assignment), typing is categorized very_slow, no pattern matches, and
the classifier falls back to normal_user with threat level None; in particular
the verdict is never Critical. -/
theorem c5_scenario3_amended :
    get_typing_category (12/10) = Category.very_slow ∧
    rule_based_analysis (12/10) 130 true false = normal_user ∧
    rule_based_analysis (12/10) 130 false true = normal_user ∧
    (rule_based_analysis (12/10) 130 true false).threat_level ≠ Severity.critical ∧
    (rule_based_analysis (12/10) 130 false true).threat_level ≠ Severity.critical := by
  have h1 : rule_based_analysis (12/10) 130 true false = normal_user := by
    unfold rule_based_analysis
    rw [cat_typing_1_2, cat_mouse_130, cons_1_2_130]
    rfl
  have h2 : rule_based_analysis (12/10) 130 false true = normal_user := by
    unfold rule_based_analysis
    rw [cat_typing_1_2, cat_mouse_130, cons_1_2_130]
    rfl
  refine ⟨cat_typing_1_2, h1, h2, ?_, ?_⟩
  · rw [h1]
    decide
  · rw [h2]
    decide

/-- C6: categorization at the exact threshold values falls into the
higher-speed bucket, for typing 2.0, 3.5, 5.5, 7.5 and mouse 100, 200, 400,
600 (every comparison in the source is strict <, never ≤). -/
theorem c6_threshold_boundaries :
    get_typing_category 2 = Category.slow ∧
    get_typing_category (7/2) = Category.normal ∧
    get_typing_category (11/2) = Category.fast ∧
    get_typing_category (15/2) = Category.very_fast ∧
    get_mouse_category 100 = Category.slow ∧
    get_mouse_category 200 = Category.normal ∧
    get_mouse_category 400 = Category.fast ∧
    get_mouse_category 600 = Category.very_fast := by
  refine ⟨?_, ?_, ?_, ?_, ?_, ?_, ?_, ?_⟩ <;>
    norm_num [get_typing_category, get_mouse_category]

/-- C7: the clamped confidence lies in the range 0 to 100 for every normalized
score (covering the sigmoid branch of the SVM detector) and either value of
the anomaly flag, and in particular for the affine Isolation Forest
normalization of an arbitrary raw score. -/
theorem c7_confidence_bounds (normalized_score raw_score : ℚ) (is_anomaly : Bool) :
    (0 ≤ confidence normalized_score is_anomaly ∧
      confidence normalized_score is_anomaly ≤ 100) ∧
    (0 ≤ confidence (if_normalized_score raw_score) is_anomaly ∧
      confidence (if_normalized_score raw_score) is_anomaly ≤ 100) := by
  have key : ∀ n : ℚ, 0 ≤ confidence n is_anomaly ∧ confidence n is_anomaly ≤ 100 := by
    intro n
    unfold confidence
    exact ⟨le_max_left _ _, max_le (by norm_num) (min_le_left _ _)⟩
  exact ⟨key normalized_score, key (if_normalized_score raw_score)⟩

/-- C8: the claim states that two runs on the same inputs agree on every field
including the timestamp.  They do not: the timestamp is the wall-clock reading
at analysis time, so two runs at distinct instants on the same sample yield
unequal verdict records. -/
theorem c8_counterexample :
    classify ts_a (9/2) 320 false false ≠ classify ts_b (9/2) 320 false false := by
  intro h
  have ht : ts_a = ts_b := congrArg ThreatVerdict.timestamp h
  exact absurd ht (by decide)

/-- C8 amended: classification is deterministic in everything but the
timestamp: two runs on the same sample and detector verdicts agree on the
threat level, description, sample and detector fields whatever the clock
reads, and the timestamp field is exactly the clock reading of the run. -/
theorem c8_determinism_amended (now1 now2 : String) (typing_speed mouse_speed : ℚ)
    (if_suspicious svm_suspicious : Bool) :
    (classify now1 typing_speed mouse_speed if_suspicious svm_suspicious).threat_level =
      (classify now2 typing_speed mouse_speed if_suspicious svm_suspicious).threat_level ∧
    (classify now1 typing_speed mouse_speed if_suspicious svm_suspicious).description =
      (classify now2 typing_speed mouse_speed if_suspicious svm_suspicious).description ∧
    (classify now1 typing_speed mouse_speed if_suspicious svm_suspicious).typing_speed =
      (classify now2 typing_speed mouse_speed if_suspicious svm_suspicious).typing_speed ∧
    (classify now1 typing_speed mouse_speed if_suspicious svm_suspicious).mouse_speed =
      (classify now2 typing_speed mouse_speed if_suspicious svm_suspicious).mouse_speed ∧
    (classify now1 typing_speed mouse_speed if_suspicious svm_suspicious).if_verdict =
      (classify now2 typing_speed mouse_speed if_suspicious svm_suspicious).if_verdict ∧
    (classify now1 typing_speed mouse_speed if_suspicious svm_suspicious).svm_verdict =
      (classify now2 typing_speed mouse_speed if_suspicious svm_suspicious).svm_verdict ∧
    (classify now1 typing_speed mouse_speed if_suspicious svm_suspicious).timestamp = now1 :=
  ⟨rfl, rfl, rfl, rfl, rfl, rfl, rfl⟩

/-- C9: at typing 7.5 and mouse 700 with both detector flags false, the
classifier still returns Critical with the bot description: the bot pattern
conditions constrain only the typing category, the mouse category and the
consistency flag, never a detector verdict. -/
theorem c9_critical_without_detector_flags :
    (rule_based_analysis (15/2) 700 false false).threat_level = Severity.critical ∧
    (rule_based_analysis (15/2) 700 false false).description = bot_pattern.description ∧
    bot_pattern.conditions.map Condition.if_suspicious = [Option.none, Option.none] ∧
    bot_pattern.conditions.map Condition.svm_suspicious = [Option.none, Option.none] ∧
    bot_pattern.conditions.map Condition.one_algorithm_suspicious =
      [Option.none, Option.none] := by
  have h : rule_based_analysis (15/2) 700 false false = bot_pattern := by
    unfold rule_based_analysis
    rw [cat_typing_7_5, cat_mouse_700, cons_7_5_700]
    rfl
  exact ⟨by rw [h]; rfl, by rw [h], rfl, rfl, rfl⟩

/-- C10: the score update is total over the threat-level label: for every
string label the updated score lands in the clamp range 500 to 1000; a label
outside the table (with a score already in range) leaves the score unchanged
because the lookup defaults to 0; and the undocumented label Error carries
penalty -10, deducting 10 whenever the clamp does not bind. -/
theorem c10_score_update_total (lvl : String) (s : Int) :
    (500 ≤ update_security_score s lvl ∧ update_security_score s lvl ≤ 1000) ∧
    (500 ≤ s → s ≤ 1000 → lvl ≠ lvl_critical → lvl ≠ lvl_high → lvl ≠ lvl_medium →
      lvl ≠ lvl_low → lvl ≠ lvl_none → lvl ≠ lvl_error → update_security_score s lvl = s) ∧
    score_impact lvl_error = -10 ∧
    (510 ≤ s → s ≤ 1000 → update_security_score s lvl_error = s - 10) := by
  refine ⟨update_security_score_bounds s lvl, ?_, rfl, ?_⟩
  · intro h1 h2 n1 n2 n3 n4 n5 n6
    have himp : score_impact lvl = 0 := by
      unfold score_impact
      rw [if_neg n1, if_neg n2, if_neg n3, if_neg n4, if_neg n5, if_neg n6]
    unfold update_security_score
    rw [himp, add_zero, min_eq_right h2, max_eq_right h1]
  · intro h1 h2
    unfold update_security_score
    have himp : score_impact lvl_error = -10 := rfl
    rw [himp]
    have hmin : min 1000 (s + -10) = s + -10 := min_eq_right (by omega)
    rw [hmin]
    have hmax : max 500 (s + -10) = s + -10 := max_eq_right (by omega)
    rw [hmax]
    omega

/-- C10 witness: the label Bogus at score 850 leaves the score unchanged, and
the label Error at score 850 deducts 10. -/
theorem c10_score_update_total_witness :
    500 ≤ (850 : Int) ∧ (850 : Int) ≤ 1000 ∧ lvl_bogus ≠ lvl_critical ∧
    update_security_score 850 lvl_bogus = 850 ∧
    510 ≤ (850 : Int) ∧ update_security_score 850 lvl_error = 840 := by
  refine ⟨by norm_num, by norm_num, by decide, ?_, by norm_num, ?_⟩
  · exact (c10_score_update_total lvl_bogus 850).2.1 (by norm_num) (by norm_num)
      (by decide) (by decide) (by decide) (by decide) (by decide) (by decide)
  · have h := (c10_score_update_total lvl_error 850).2.2.2 (by norm_num) (by norm_num)
    omega

end QSecure
